import Mathlib

/-!
Verification of the UltraSafe betting engine
(scripts/moteur_paris_ultrasafe.py).

The embedding models Python floats as exact rationals (ℚ), Python ints as ℤ,
Python `None` as `Option.none`, and Python truthiness on numbers as the test
`≠ 0`.  `int(x)` on a float is truncation toward zero, modelled by `pyint`.
-/

namespace UltraSafe

/-- Python `int(q)`: truncation toward zero. -/
def pyint (q : ℚ) : ℤ :=
if 0 ≤ q then ⌊q⌋ else ⌈q⌉

/-- Truthiness of an optional number: `None` and `0` are falsy. -/
def optTruthy : Option ℚ → Bool
| none => false
| some q => decide (q ≠ 0)

/-- One season's raw statistics for one team, as read from
`stats_equipes.jsonl` (`record['stats']`); any field may be missing. -/
structure RawStats where
  played_total : Option ℚ := none
  wins_total : Option ℚ := none
  gf_avg : Option ℚ := none
  ga_avg : Option ℚ := none
  clean_sheets_total : Option ℚ := none
  failed_to_score_total : Option ℚ := none
  over15_rate : Option ℚ := none
deriving DecidableEq

/-- The empty stats dict `{}` used when a season record is absent. -/
def emptyRaw : RawStats := {}

/-- One season record for one team: metadata plus raw stats. -/
structure TeamRecord where
  team_name : String
  league_id : ℤ
  stats : RawStats
deriving DecidableEq

/-- The dataclass `TeamStats` (fields as stored after `__post_init__`
ran; the derived indicators are the functions below). -/
structure TeamStats where
  team_id : ℤ
  team_name : String
  league_id : ℤ
  played_total : ℤ
  wins_total : ℤ
  gf_avg : ℚ
  ga_avg : ℚ
  clean_sheets_total : Option ℤ := none
  failed_to_score_total : Option ℤ := none
  over15_rate : Option ℚ := none
deriving DecidableEq

/-- `self.win_rate = self.wins_total / max(self.played_total, 1)`. -/
def TeamStats.win_rate (t : TeamStats) : ℚ :=
(t.wins_total : ℚ) / ((max t.played_total 1 : ℤ) : ℚ)

/-- `self.goal_diff_avg = self.gf_avg - self.ga_avg`. -/
def TeamStats.goal_diff_avg (t : TeamStats) : ℚ :=
t.gf_avg - t.ga_avg

/-- `self.reliability_attack`: exact from `failed_to_score_total` when that
field is not `None`, else estimated from `gf_avg`. -/
def TeamStats.reliability_attack (t : TeamStats) : ℚ :=
match t.failed_to_score_total with
| some f => 1 - (f : ℚ) / ((max t.played_total 1 : ℤ) : ℚ)
| none => min (t.gf_avg / (3/2)) (19/20)

/-- `self.reliability_defense`: exact from `clean_sheets_total` when that
field is not `None`, else estimated from `ga_avg`. -/
def TeamStats.reliability_defense (t : TeamStats) : ℚ :=
match t.clean_sheets_total with
| some c => (c : ℚ) / ((max t.played_total 1 : ℤ) : ℚ)
| none => max 0 (1 - t.ga_avg / (3/2))

/-! ## Season blending (`_creer_stats_ponderees`) -/

/-- Current-season weight: 0.3 before 8 played games, 0.7 after
(`played_2025 = s25.get('played_total') or 0`). -/
def weight_2025 (s25 : RawStats) : ℚ :=
if (s25.played_total).getD 0 < 8 then 3/10 else 7/10

/-- Prior-season weight, the complement choice of `weight_2025`. -/
def weight_2024 (s25 : RawStats) : ℚ :=
if (s25.played_total).getD 0 < 8 then 7/10 else 3/10

/-- Per-field fusion: weighted blend when both seasons have the field,
the single value when one does, 0 when neither does. -/
def blendField (w25 w24 : ℚ) : Option ℚ → Option ℚ → ℚ
| some a, some b => w25 * a + w24 * b
| some a, none => a
| none, some b => b
| none, none => 0

/-- `stats_final[field]` for a numeric field. -/
def stats_final (s24 s25 : RawStats) (f : RawStats → Option ℚ) : ℚ :=
blendField (weight_2025 s25) (weight_2024 s25) (f s25) (f s24)

/-- `max(0.3, min(0.95, x))`. -/
def clamp0395 (x : ℚ) : ℚ :=
max (3/10) (min (19/20) x)

/-- `over15_final`: weighted blend when both seasons carry a truthy
`over15_rate`, else the clamped estimate from the blended goal averages. -/
def over15_final (s24 s25 : RawStats) : ℚ :=
if optTruthy s25.over15_rate ∧ optTruthy s24.over15_rate then
  weight_2025 s25 * (s25.over15_rate).getD 0 + weight_2024 s25 * (s24.over15_rate).getD 0
else
  clamp0395 ((stats_final s24 s25 RawStats.gf_avg + stats_final s24 s25 RawStats.ga_avg) / 3)

/-- The `TeamStats(...)` constructor call inside `_creer_stats_ponderees`:
counts truncated with `int(...)`, the optional counts kept only when truthy. -/
def creer_team_stats (team_id : ℤ) (team_name : String) (league_id : ℤ)
    (s24 s25 : RawStats) : TeamStats :=
{ team_id := team_id
  team_name := team_name
  league_id := league_id
  played_total := pyint (stats_final s24 s25 RawStats.played_total)
  wins_total := pyint (stats_final s24 s25 RawStats.wins_total)
  gf_avg := stats_final s24 s25 RawStats.gf_avg
  ga_avg := stats_final s24 s25 RawStats.ga_avg
  clean_sheets_total :=
    if stats_final s24 s25 RawStats.clean_sheets_total = 0 then none
    else some (pyint (stats_final s24 s25 RawStats.clean_sheets_total))
  failed_to_score_total :=
    if stats_final s24 s25 RawStats.failed_to_score_total = 0 then none
    else some (pyint (stats_final s24 s25 RawStats.failed_to_score_total))
  over15_rate := some (over15_final s24 s25) }

/-- The Rating Cache built by `_creer_stats_ponderees`: a team present in
either season map is blended and inserted; metadata prefers 2025. -/
def creer_stats_ponderees (stats_2024 stats_2025 : ℤ → Option TeamRecord)
    (team_id : ℤ) : Option TeamStats :=
match stats_2025 team_id, stats_2024 team_id with
| none, none => none
| some m, r24 =>
    some (creer_team_stats team_id m.team_name m.league_id
      (match r24 with | some r => r.stats | none => emptyRaw) m.stats)
| none, some m =>
    some (creer_team_stats team_id m.team_name m.league_id m.stats emptyRaw)

/-! ## Thresholds and flags -/

/-- The `SEUILS` dictionary of `MoteurUltraSafe.__init__`. -/
structure Seuils where
  ultrasafe_over15 : ℚ := 39/50
  safe_over15 : ℚ := 17/25
  ultrasafe_result : ℚ := 3/5
  safe_result : ℚ := 9/20
  played_min : ℤ := 6
  played_combine_min : ℤ := 10
deriving DecidableEq

/-- The default thresholds set in `MoteurUltraSafe.__init__`. -/
def defaultSeuils : Seuils := {}

/-- The flag strings produced by `appliquer_filtres` (plus
`melange_divisions`, which the decision code tests for but which
`appliquer_filtres` never emits). -/
inductive Flag where
| echantillon_faible_A (played : ℤ)
| echantillon_faible_B (played : ℤ)
| echantillon_combine_faible
| gap_niveau_important
| melange_divisions
deriving DecidableEq

/-- `'echantillon' in flag`: substring test on the flag string. -/
def Flag.isEchantillon : Flag → Bool
| .echantillon_faible_A _ => true
| .echantillon_faible_B _ => true
| .echantillon_combine_faible => true
| _ => false

/-- `flag in ['melange_divisions', 'echantillon_combine_faible']`. -/
def Flag.isExclusion : Flag → Bool
| .melange_divisions => true
| .echantillon_combine_faible => true
| _ => false

/-- `appliquer_filtres`: the flags raised for a pair of teams, in the
order the code appends them. -/
def appliquer_filtres (s : Seuils) (team_a team_b : TeamStats) : List Flag :=
(if team_a.played_total < s.played_min then [Flag.echantillon_faible_A team_a.played_total] else [])
++ (if team_b.played_total < s.played_min then [Flag.echantillon_faible_B team_b.played_total] else [])
++ (if team_a.played_total + team_b.played_total < s.played_combine_min then [Flag.echantillon_combine_faible] else [])
++ (if 2 < |team_a.goal_diff_avg - team_b.goal_diff_avg| then [Flag.gap_niveau_important] else [])

/-! ## Composite indices -/

/-- The per-team rate used by `calculer_o15i`: the stored `over15_rate`
when truthy, else the clamped estimate from the goal averages. -/
def est_over15 (t : TeamStats) : ℚ :=
match t.over15_rate with
| some r => if r = 0 then clamp0395 ((t.gf_avg + t.ga_avg) / 3) else r
| none => clamp0395 ((t.gf_avg + t.ga_avg) / 3)

/-- `calculer_o15i`: independent combination `1 - (1-a)*(1-b)`. -/
def calculer_o15i (team_a team_b : TeamStats) : ℚ :=
1 - (1 - est_over15 team_a) * (1 - est_over15 team_b)

/-- `calculer_rsi`: the weighted sum of normalized deltas for A, and its
negation for B. -/
def calculer_rsi (team_a team_b : TeamStats) : ℚ × ℚ :=
let delta_win := team_a.win_rate - team_b.win_rate
let delta_gdiff_norm := (team_a.goal_diff_avg - team_b.goal_diff_avg) / 2
let delta_atk_norm := (team_a.gf_avg - team_b.gf_avg) / 3
let delta_def_norm := (team_b.ga_avg - team_a.ga_avg) / 3
let delta_fail := team_a.reliability_attack - team_b.reliability_attack
let delta_cs := team_a.reliability_defense - team_b.reliability_defense
let rsi_a := (2/5) * delta_win + (1/4) * delta_gdiff_norm + (3/20) * delta_def_norm
  + (1/10) * delta_atk_norm + (1/20) * delta_fail + (1/20) * delta_cs
(rsi_a, -rsi_a)

/-! ## Decisions -/

/-- The three return strings of `prendre_decision_over15`. -/
inductive DecisionOver15 where
| ultraSafe
| safe
| eviter
deriving DecidableEq

/-- `prendre_decision_over15`: thresholds raised by the sample penalty,
then a three-way comparison; the O15I itself is the confidence. -/
def prendre_decision_over15 (s : Seuils) (o15i : ℚ) (flags : List Flag) :
    DecisionOver15 × ℚ :=
let seuil_ultra := if flags.any Flag.isEchantillon then s.ultrasafe_over15 + 1/20 else s.ultrasafe_over15
let seuil_safe := if flags.any Flag.isEchantillon then s.safe_over15 + 3/100 else s.safe_over15
if seuil_ultra ≤ o15i then (DecisionOver15.ultraSafe, o15i)
else if seuil_safe ≤ o15i then (DecisionOver15.safe, o15i)
else (DecisionOver15.eviter, o15i)

/-- The five return strings of `prendre_decision_result`. -/
inductive DecisionResult where
| ultraA
| safeA
| ultraB
| safeB
| eviter
deriving DecidableEq

/-- `prendre_decision_result`: A's side checked before B's, ultra before
safe; the ultra tier is blocked by an exclusion flag; if nothing clears
the safe bar the outcome is avoid with confidence `max(|rsi_a|, |rsi_b|)`. -/
def prendre_decision_result (s : Seuils) (rsi_a rsi_b : ℚ) (flags : List Flag) :
    DecisionResult × ℚ :=
let no_ultrasafe := flags.any Flag.isExclusion
let seuil_ultra := if flags.any Flag.isEchantillon then s.ultrasafe_result + 1/20 else s.ultrasafe_result
let seuil_safe := if flags.any Flag.isEchantillon then s.safe_result + 3/100 else s.safe_result
if seuil_ultra ≤ rsi_a ∧ ¬ no_ultrasafe then (DecisionResult.ultraA, rsi_a)
else if seuil_safe ≤ rsi_a then (DecisionResult.safeA, rsi_a)
else if seuil_ultra ≤ rsi_b ∧ ¬ no_ultrasafe then (DecisionResult.ultraB, rsi_b)
else if seuil_safe ≤ rsi_b then (DecisionResult.safeB, rsi_b)
else (DecisionResult.eviter, max |rsi_a| |rsi_b|)

/-! ## Match analysis -/

/-- The dataclass `MatchAnalysis`. -/
structure MatchAnalysis where
  equipe_a : String
  equipe_b : String
  league_id : ℤ
  o15i : ℚ
  rsi_a : ℚ
  rsi_b : ℚ
  decision_over15 : DecisionOver15
  decision_result : DecisionResult
  fiabilite_over15 : ℚ
  fiabilite_result : ℚ
  flags : List Flag
  equipe_a_id : ℤ
  equipe_b_id : ℤ
deriving DecidableEq

/-- `analyser_match`: `None` when either team is missing from the cache or
the leagues differ, else the full analysis. -/
def analyser_match (s : Seuils) (cache : ℤ → Option TeamStats)
    (team_a_id team_b_id : ℤ) : Option MatchAnalysis :=
match cache team_a_id, cache team_b_id with
| some team_a, some team_b =>
    if team_a.league_id ≠ team_b.league_id then none
    else
      let flags := appliquer_filtres s team_a team_b
      let o15i := calculer_o15i team_a team_b
      let rsi := calculer_rsi team_a team_b
      let d_over := prendre_decision_over15 s o15i flags
      let d_result := prendre_decision_result s rsi.1 rsi.2 flags
      some
        { equipe_a := team_a.team_name
          equipe_b := team_b.team_name
          league_id := team_a.league_id
          o15i := o15i
          rsi_a := rsi.1
          rsi_b := rsi.2
          decision_over15 := d_over.1
          decision_result := d_result.1
          fiabilite_over15 := d_over.2
          fiabilite_result := d_result.2
          flags := flags
          equipe_a_id := team_a_id
          equipe_b_id := team_b_id }
| _, _ => none

/-! ## Generation of the day's bets (`generer_paris_du_jour`) -/

/-- `decision_over15.startswith("UltraSafe")`. -/
def isUltraOver (x : MatchAnalysis) : Bool :=
decide (x.decision_over15 = DecisionOver15.ultraSafe)

/-- `decision_result.startswith("UltraSafe")`. -/
def isUltraResult (x : MatchAnalysis) : Bool :=
match x.decision_result with
| .ultraA => true
| .ultraB => true
| _ => false

/-- `ultrasafe_over15.sort(key=..., reverse=True)`: stable descending sort
by `fiabilite_over15`. -/
def tri_over (l : List MatchAnalysis) : List MatchAnalysis :=
l.mergeSort (fun x y => decide (y.fiabilite_over15 ≤ x.fiabilite_over15))

/-- `ultrasafe_result.sort(key=..., reverse=True)`: stable descending sort
by `fiabilite_result`. -/
def tri_result (l : List MatchAnalysis) : List MatchAnalysis :=
l.mergeSort (fun x y => decide (y.fiabilite_result ≤ x.fiabilite_result))

/-- The two row families written to `paris_du_jour.csv`. -/
inductive BetType where
| ultraSafeOver15
| ultraSafeResult
deriving DecidableEq

/-- `_ecrire_paris_du_jour`: the data rows of `paris_du_jour.csv` — the
top 3 of each sorted family, over-goals rows first. -/
def ecrire_paris_du_jour (ultrasafe_over15 ultrasafe_result : List MatchAnalysis) :
    List (BetType × MatchAnalysis) :=
(ultrasafe_over15.take 3).map (fun a => (BetType.ultraSafeOver15, a))
++ (ultrasafe_result.take 3).map (fun a => (BetType.ultraSafeResult, a))

/-- The successful analyses collected by the loop of `generer_paris_du_jour`. -/
def analyses_du_jour (s : Seuils) (cache : ℤ → Option TeamStats)
    (matchs_input : List (ℤ × ℤ)) : List MatchAnalysis :=
matchs_input.filterMap (fun p => analyser_match s cache p.1 p.2)

/-- `generer_paris_du_jour`: returns (rows of `paris_du_jour.csv`,
rows appended to `historique.csv` — one per analysed match). -/
def generer_paris_du_jour (s : Seuils) (cache : ℤ → Option TeamStats)
    (matchs_input : List (ℤ × ℤ)) :
    List (BetType × MatchAnalysis) × List MatchAnalysis :=
let analyses := analyses_du_jour s cache matchs_input
(ecrire_paris_du_jour
  (tri_over (analyses.filter isUltraOver))
  (tri_result (analyses.filter isUltraResult)),
 analyses)

/-! ## Top-level control flow (`main`) -/

/-- Observable outcome of a run of `main` after the stats were loaded. -/
structure RunResult where
  exitCode : ℕ
  parisFileWritten : Bool
  parisRows : List (BetType × MatchAnalysis)
  historiqueRows : List MatchAnalysis
deriving DecidableEq

/-- `main` after `charger_stats_equipes` succeeded: an empty match list
hits `sys.exit(1)` before any output file is touched; otherwise
`generer_paris_du_jour` writes both files and the process ends with 0. -/
def mainRun (s : Seuils) (cache : ℤ → Option TeamStats)
    (matchs_input : List (ℤ × ℤ)) : RunResult :=
if matchs_input.isEmpty then
  { exitCode := 1, parisFileWritten := false, parisRows := [], historiqueRows := [] }
else
  let g := generer_paris_du_jour s cache matchs_input
  { exitCode := 0, parisFileWritten := true, parisRows := g.1, historiqueRows := g.2 }

/-! ## Concrete example inputs used in the theorems below -/

/-- Raw 2024 stats of a team with zero games played. -/
def exPlayedZeroRaw : RawStats :=
{ played_total := some 0, wins_total := some 0, gf_avg := some 1, ga_avg := some 1 }

/-- A 2024 season map holding one team with zero games played. -/
def exPlayedZero_s24 : ℤ → Option TeamRecord := fun tid =>
if tid = 1 then some ⟨"Zero FC", 39, exPlayedZeroRaw⟩ else none

/-- A season map with no teams. -/
def exEmptySeason : ℤ → Option TeamRecord := fun _ => none

/-- Raw 2025 stats of a team whose `over15_rate` is present (0.9). -/
def exOverOnceRaw : RawStats :=
{ played_total := some 10, wins_total := some 5, gf_avg := some 1, ga_avg := some 1,
  over15_rate := some (9/10) }

/-- A 2025 season map holding the `exOverOnceRaw` team, the 2024 season
being absent. -/
def exOverOnce_s25 : ℤ → Option TeamRecord := fun tid =>
if tid = 1 then some ⟨"Once FC", 39, exOverOnceRaw⟩ else none

/-- Raw 2025 stats with a known raw `failed_to_score_total` of exactly 0. -/
def exFtsZeroRaw : RawStats :=
{ played_total := some 10, wins_total := some 5, gf_avg := some 3, ga_avg := some 1,
  failed_to_score_total := some 0 }

/-- A 2025 season map holding the `exFtsZeroRaw` team. -/
def exFtsZero_s25 : ℤ → Option TeamRecord := fun tid =>
if tid = 1 then some ⟨"Scorers FC", 39, exFtsZeroRaw⟩ else none

/-- Raw 2025 stats of a team with 10 games played. -/
def exTenRaw25 : RawStats :=
{ played_total := some 10, wins_total := some 5, gf_avg := some 1, ga_avg := some 1 }

/-- Raw 2024 stats of the same team, also with 10 games played. -/
def exTenRaw24 : RawStats :=
{ played_total := some 10, wins_total := some 4, gf_avg := some 1, ga_avg := some 1 }

/-- A 2025 season map holding the `exTenRaw25` team. -/
def exTen_s25 : ℤ → Option TeamRecord := fun tid =>
if tid = 1 then some ⟨"Ten FC", 39, exTenRaw25⟩ else none

/-- A 2024 season map holding the `exTenRaw24` team. -/
def exTen_s24 : ℤ → Option TeamRecord := fun tid =>
if tid = 1 then some ⟨"Ten FC", 39, exTenRaw24⟩ else none

/-- A team rating whose stored `over15_rate` is exactly 0 (falsy). -/
def exRateZero : TeamStats :=
{ team_id := 1, team_name := "A", league_id := 1, played_total := 10, wins_total := 5,
  gf_avg := 2, ga_avg := 1, over15_rate := some 0 }

/-- The same team with `over15_rate` raised to 0.1. -/
def exRateTenth : TeamStats :=
{ exRateZero with over15_rate := some (1/10) }

/-- A fixed opponent with `over15_rate` 0.5. -/
def exOpponentHalf : TeamStats :=
{ team_id := 2, team_name := "B", league_id := 1, played_total := 10, wins_total := 5,
  gf_avg := 1, ga_avg := 1, over15_rate := some (1/2) }

/-! ## Theorems -/

/-- C1, counterexample: with an empty match-pair list the run terminates
with exit status 1 and the recommendation file is never written,
contradicting the claimed header-only success path. -/
theorem c1_counterexample :
    (mainRun defaultSeuils (fun _ => none) []).exitCode = 1 ∧
    (mainRun defaultSeuils (fun _ => none) []).parisFileWritten = false :=
⟨rfl, rfl⟩

/-- C1, amended: if the list of match pairs loaded at startup is empty,
the engine terminates with exit status 1 and produces no recommendation
output file at all. -/
theorem c1_empty_matchs_exits_one (s : Seuils) (cache : ℤ → Option TeamStats) :
    mainRun s cache [] =
      { exitCode := 1, parisFileWritten := false, parisRows := [], historiqueRows := [] } :=
rfl

/-- C2, counterexample: a team whose blended `played_total` is zero is
nevertheless stored in the Rating Cache. -/
theorem c2_counterexample :
    (creer_stats_ponderees exPlayedZero_s24 exEmptySeason 1).map TeamStats.played_total
      = some 0 := by
  decide

/-- C2, amended: there is no skip rule — every team carrying a record in
at least one season is inserted into the Rating Cache, even when its
blended `played_total` is zero. -/
theorem c2_cache_insertion (stats_2024 stats_2025 : ℤ → Option TeamRecord) (team_id : ℤ)
    (h : (stats_2024 team_id).isSome = true ∨ (stats_2025 team_id).isSome = true) :
    (creer_stats_ponderees stats_2024 stats_2025 team_id).isSome = true := by
  unfold creer_stats_ponderees
  rcases h25 : stats_2025 team_id with _ | m25 <;>
    rcases h24 : stats_2024 team_id with _ | m24 <;>
    simp_all

/-- C2, witness for the amended theorem at the zero-played example. -/
theorem c2_cache_insertion_witness :
    (creer_stats_ponderees exPlayedZero_s24 exEmptySeason 1).isSome = true :=
c2_cache_insertion exPlayedZero_s24 exEmptySeason 1 (Or.inl (by decide))

/-- C5: swapping the two teams negates the relative strength index
exactly, and the returned pair is (rsi, -rsi) by construction. -/
theorem c5_rsi_antisymmetric (A B : TeamStats) :
    (calculer_rsi A B).1 = -(calculer_rsi B A).1 ∧
    (calculer_rsi A B).2 = -(calculer_rsi A B).1 := by
  constructor
  · simp only [calculer_rsi]
    ring
  · simp only [calculer_rsi]

/-- C3, counterexample: with `over15_rate` present (0.9) in the 2025
season only, the blended rating carries the clamped estimate 2/3, not
the single present value. -/
theorem c3_counterexample :
    (creer_stats_ponderees exEmptySeason exOverOnce_s25 1).map TeamStats.over15_rate
      = some (some (2/3)) ∧ (2/3 : ℚ) ≠ 9/10 := by
  constructor
  · norm_num [creer_stats_ponderees, exOverOnce_s25, exOverOnceRaw, exEmptySeason,
      creer_team_stats, over15_final, stats_final, blendField, weight_2025, weight_2024,
      optTruthy, clamp0395, emptyRaw]
  · norm_num

/-- C3, amended: the blended `over_1_5_rate` is the weighted blend only
when a nonzero value is present in both seasons; in every other case
(absent from either season, or present with value zero) it is the clamped
estimate from the blended goal averages. -/
theorem c3_over15_cases (team_id : ℤ) (team_name : String) (league_id : ℤ)
    (s24 s25 : RawStats) :
    (creer_team_stats team_id team_name league_id s24 s25).over15_rate
      = some (over15_final s24 s25) ∧
    (∀ r25 r24 : ℚ, s25.over15_rate = some r25 → s24.over15_rate = some r24 →
      r25 ≠ 0 → r24 ≠ 0 →
      over15_final s24 s25 = weight_2025 s25 * r25 + weight_2024 s25 * r24) ∧
    (optTruthy s25.over15_rate = false ∨ optTruthy s24.over15_rate = false →
      over15_final s24 s25 =
        clamp0395 ((stats_final s24 s25 RawStats.gf_avg
          + stats_final s24 s25 RawStats.ga_avg) / 3)) := by
  refine ⟨rfl, ?_, ?_⟩
  · intro r25 r24 h25 h24 hn25 hn24
    unfold over15_final
    rw [h25, h24]
    simp [optTruthy, hn25, hn24]
  · intro h
    unfold over15_final
    rcases h with h | h <;> simp [h]

/-- C3, witness for the amended theorem: the estimate case at the
present-in-2025-only example. -/
theorem c3_over15_cases_witness :
    over15_final emptyRaw exOverOnceRaw =
      clamp0395 ((stats_final emptyRaw exOverOnceRaw RawStats.gf_avg
        + stats_final emptyRaw exOverOnceRaw RawStats.ga_avg) / 3) :=
(c3_over15_cases 1 "Once FC" 39 emptyRaw exOverOnceRaw).2.2 (Or.inr (by decide))

/-- C4, counterexample: the raw `failed_to_score_total` is known and
equals 0, yet `reliability_attack` is the estimate 0.95 rather than the
exact value `1 - 0/10 = 1`. -/
theorem c4_counterexample :
    (exFtsZero_s25 1).map (fun r => r.stats.failed_to_score_total) = some (some 0) ∧
    (creer_stats_ponderees exEmptySeason exFtsZero_s25 1).map TeamStats.reliability_attack
      = some (19/20) ∧ (19/20 : ℚ) ≠ 1 - 0 / 10 := by
  refine ⟨by decide, ?_, by norm_num⟩
  norm_num [creer_stats_ponderees, exFtsZero_s25, exFtsZeroRaw, exEmptySeason,
    creer_team_stats, stats_final, blendField, weight_2025, weight_2024,
    TeamStats.reliability_attack, emptyRaw, pyint]

/-- C4, amended: the exact reliability formulas (over `max(played,1)`)
apply only when the blended optional count is nonzero; a blended count of
zero — including a known raw count of zero — is converted to `None` by
the truthiness test, so the estimate is used instead. -/
theorem c4_reliability_cases (team_id : ℤ) (team_name : String) (league_id : ℤ)
    (s24 s25 : RawStats) :
    (stats_final s24 s25 RawStats.failed_to_score_total ≠ 0 →
      (creer_team_stats team_id team_name league_id s24 s25).reliability_attack
        = 1 - (pyint (stats_final s24 s25 RawStats.failed_to_score_total) : ℚ)
            / ((max (creer_team_stats team_id team_name league_id s24 s25).played_total 1 : ℤ) : ℚ)) ∧
    (stats_final s24 s25 RawStats.failed_to_score_total = 0 →
      (creer_team_stats team_id team_name league_id s24 s25).reliability_attack
        = min ((creer_team_stats team_id team_name league_id s24 s25).gf_avg / (3/2)) (19/20)) ∧
    (stats_final s24 s25 RawStats.clean_sheets_total ≠ 0 →
      (creer_team_stats team_id team_name league_id s24 s25).reliability_defense
        = (pyint (stats_final s24 s25 RawStats.clean_sheets_total) : ℚ)
            / ((max (creer_team_stats team_id team_name league_id s24 s25).played_total 1 : ℤ) : ℚ)) ∧
    (stats_final s24 s25 RawStats.clean_sheets_total = 0 →
      (creer_team_stats team_id team_name league_id s24 s25).reliability_defense
        = max 0 (1 - (creer_team_stats team_id team_name league_id s24 s25).ga_avg / (3/2))) := by
  refine ⟨fun h => ?_, fun h => ?_, fun h => ?_, fun h => ?_⟩ <;>
    simp [creer_team_stats, TeamStats.reliability_attack, TeamStats.reliability_defense, h]

/-- C4, witness for the amended theorem: the estimate case at the
known-zero-count example. -/
theorem c4_reliability_cases_witness :
    (creer_team_stats 1 "Scorers FC" 39 emptyRaw exFtsZeroRaw).reliability_attack
      = min ((creer_team_stats 1 "Scorers FC" 39 emptyRaw exFtsZeroRaw).gf_avg / (3/2)) (19/20) :=
(c4_reliability_cases 1 "Scorers FC" 39 emptyRaw exFtsZeroRaw).2.1 (by decide)

/-- C6, counterexample: with a stored rate of exactly 0 (inside `[0,1]`)
the code substitutes the clamped estimate, so the computed index is not
`1-(1-rate_a)(1-rate_b)` and raising the rate from 0 to 0.1 strictly
lowers the index — monotonicity on `[0,1]` fails. -/
theorem c6_counterexample :
    exRateZero.over15_rate = some 0 ∧ exRateTenth.over15_rate = some (1/10) ∧
    calculer_o15i exRateTenth exOpponentHalf < calculer_o15i exRateZero exOpponentHalf ∧
    calculer_o15i exRateZero exOpponentHalf ≠ 1 - (1 - 0) * (1 - 1/2) := by
  refine ⟨rfl, rfl, ?_, ?_⟩ <;>
    norm_num [calculer_o15i, est_over15, exRateZero, exRateTenth, exOpponentHalf, clamp0395]

/-- C6, amended: for stored rates in the half-open interval `(0,1]` the
computed index is exactly `1-(1-rate_a)(1-rate_b)`, lies in `[0,1]`, is
monotonically non-decreasing in each team's rate holding the other fixed,
and both rates 0.5 give 0.75; a rate of exactly 0 is treated as missing
and replaced by the clamped estimate. -/
theorem c6_over_index (A B A2 B2 : TeamStats) (ra rb ra2 rb2 : ℚ)
    (hA : A.over15_rate = some ra) (hB : B.over15_rate = some rb)
    (hA2 : A2.over15_rate = some ra2) (hB2 : B2.over15_rate = some rb2)
    (hra0 : 0 < ra) (hra1 : ra ≤ 1) (hrb0 : 0 < rb) (hrb1 : rb ≤ 1)
    (hra20 : 0 < ra2) (hrb20 : 0 < rb2)
    (hmono_a : ra ≤ ra2) (hmono_b : rb ≤ rb2) :
    calculer_o15i A B = 1 - (1 - ra) * (1 - rb) ∧
    0 ≤ calculer_o15i A B ∧ calculer_o15i A B ≤ 1 ∧
    calculer_o15i A B ≤ calculer_o15i A2 B ∧
    calculer_o15i A B ≤ calculer_o15i A B2 ∧
    calculer_o15i exOpponentHalf exOpponentHalf = 3/4 := by
  have eA : est_over15 A = ra := by
    unfold est_over15
    rw [hA]
    simp [hra0.ne']
  have eB : est_over15 B = rb := by
    unfold est_over15
    rw [hB]
    simp [hrb0.ne']
  have eA2 : est_over15 A2 = ra2 := by
    unfold est_over15
    rw [hA2]
    simp [hra20.ne']
  have eB2 : est_over15 B2 = rb2 := by
    unfold est_over15
    rw [hB2]
    simp [hrb20.ne']
  refine ⟨?_, ?_, ?_, ?_, ?_, ?_⟩
  · rw [calculer_o15i, eA, eB]
  · rw [calculer_o15i, eA, eB]
    nlinarith [mul_nonneg (sub_nonneg.mpr hra1) (sub_nonneg.mpr hrb1)]
  · rw [calculer_o15i, eA, eB]
    nlinarith [mul_nonneg hra0.le (sub_nonneg.mpr hrb1), hrb0.le]
  · rw [calculer_o15i, calculer_o15i, eA, eB, eA2]
    nlinarith [mul_nonneg (sub_nonneg.mpr hmono_a) (sub_nonneg.mpr hrb1)]
  · rw [calculer_o15i, calculer_o15i, eA, eB, eB2]
    nlinarith [mul_nonneg (sub_nonneg.mpr hmono_b) (sub_nonneg.mpr hra1)]
  · norm_num [calculer_o15i, est_over15, exOpponentHalf]

/-- C6, witness for the amended theorem at both rates 0.5. -/
theorem c6_over_index_witness :
    calculer_o15i exOpponentHalf exOpponentHalf = 1 - (1 - 1/2) * (1 - 1/2) ∧
    0 ≤ calculer_o15i exOpponentHalf exOpponentHalf ∧
    calculer_o15i exOpponentHalf exOpponentHalf ≤ 1 ∧
    calculer_o15i exOpponentHalf exOpponentHalf ≤ calculer_o15i exOpponentHalf exOpponentHalf ∧
    calculer_o15i exOpponentHalf exOpponentHalf ≤ calculer_o15i exOpponentHalf exOpponentHalf ∧
    calculer_o15i exOpponentHalf exOpponentHalf = 3/4 :=
c6_over_index exOpponentHalf exOpponentHalf exOpponentHalf exOpponentHalf
  (1/2) (1/2) (1/2) (1/2) rfl rfl rfl rfl
  (by norm_num) (by norm_num) (by norm_num) (by norm_num)
  (by norm_num) (by norm_num) (by norm_num) (by norm_num)

/-- C7, counterexample: with 10 games played in both seasons (current
season well past 8), the blended `played_total` is 10, which does not lie
strictly between the two raw values. -/
theorem c7_counterexample :
    (exTen_s25 1).map (fun r => r.stats.played_total) = some (some 10) ∧
    (exTen_s24 1).map (fun r => r.stats.played_total) = some (some 10) ∧
    (creer_stats_ponderees exTen_s24 exTen_s25 1).map TeamStats.played_total = some 10 ∧
    ¬ ((10 : ℤ) < 10 ∧ (10 : ℤ) < 10) := by
  refine ⟨by decide, by decide, ?_, by decide⟩
  norm_num [creer_stats_ponderees, exTen_s24, exTen_s25, exTenRaw24, exTenRaw25,
    creer_team_stats, stats_final, blendField, weight_2025, weight_2024, pyint, emptyRaw,
    Int.floor_eq_iff]

/-- C7, amended: for integer raw played counts, positive in both seasons
and at least 8 in the current season, the stored blended `played_total`
(the truncated 0.7/0.3 weighted average) lies in the closed interval
between the two raw values — the bounds can be attained, e.g. when the
raw values are equal or through the `int(...)` truncation. -/
theorem c7_played_between (team_id : ℤ) (team_name : String) (league_id : ℤ)
    (s24 s25 : RawStats) (n24 n25 : ℕ)
    (h24 : s24.played_total = some (n24 : ℚ)) (h25 : s25.played_total = some (n25 : ℚ))
    (hcur : 8 ≤ n25) (hpos : 0 < n24) :
    min (n24 : ℤ) (n25 : ℤ)
      ≤ (creer_team_stats team_id team_name league_id s24 s25).played_total ∧
    (creer_team_stats team_id team_name league_id s24 s25).played_total
      ≤ max (n24 : ℤ) (n25 : ℤ) := by
  have hn : ¬ n25 < 8 := not_lt.mpr hcur
  have hsf : stats_final s24 s25 RawStats.played_total = 7/10 * n25 + 3/10 * n24 := by
    unfold stats_final blendField weight_2025 weight_2024
    rw [h24, h25]
    simp [hn]
  have hq0 : (0 : ℚ) ≤ 7/10 * n25 + 3/10 * n24 := by positivity
  have hplayed : (creer_team_stats team_id team_name league_id s24 s25).played_total
      = ⌊(7/10 * n25 + 3/10 * n24 : ℚ)⌋ := by
    simp only [creer_team_stats, pyint, hsf, if_pos hq0]
  rw [hplayed]
  constructor
  · rw [Int.le_floor]
    rcases le_total (n24 : ℚ) (n25 : ℚ) with h | h
    · have : min (n24 : ℤ) (n25 : ℤ) = (n24 : ℤ) := min_eq_left (by exact_mod_cast h)
      rw [this]
      push_cast
      linarith
    · have : min (n24 : ℤ) (n25 : ℤ) = (n25 : ℤ) := min_eq_right (by exact_mod_cast h)
      rw [this]
      push_cast
      linarith
  · have hup : (7/10 * n25 + 3/10 * n24 : ℚ) ≤ ((max (n24 : ℤ) (n25 : ℤ) : ℤ) : ℚ) := by
      rcases le_total (n24 : ℚ) (n25 : ℚ) with h | h
      · have : max (n24 : ℤ) (n25 : ℤ) = (n25 : ℤ) := max_eq_right (by exact_mod_cast h)
        rw [this]
        push_cast
        linarith
      · have : max (n24 : ℤ) (n25 : ℤ) = (n24 : ℤ) := max_eq_left (by exact_mod_cast h)
        rw [this]
        push_cast
        linarith
    have h1 : ((⌊(7/10 * n25 + 3/10 * n24 : ℚ)⌋ : ℤ) : ℚ)
        ≤ ((max (n24 : ℤ) (n25 : ℤ) : ℤ) : ℚ) :=
      (Int.floor_le (7/10 * n25 + 3/10 * n24 : ℚ)).trans hup
    exact_mod_cast h1

/-- C7, witness for the amended theorem at the equal-played example. -/
theorem c7_played_between_witness :
    min ((10 : ℕ) : ℤ) ((10 : ℕ) : ℤ)
      ≤ (creer_team_stats 1 "Ten FC" 39 exTenRaw24 exTenRaw25).played_total ∧
    (creer_team_stats 1 "Ten FC" 39 exTenRaw24 exTenRaw25).played_total
      ≤ max ((10 : ℕ) : ℤ) ((10 : ℕ) : ℤ) :=
c7_played_between 1 "Ten FC" 39 exTenRaw24 exTenRaw25 10 10
  (by norm_num [exTenRaw24]) (by norm_num [exTenRaw25]) (by norm_num) (by norm_num)

/-- C8: in the result-bet decision with the engine's thresholds, the
ultra tier is never returned while the combined-low-sample flag is
present; when neither index clears the (possibly penalized) safe
threshold the outcome is avoid with confidence `max(|rsi_a|,|rsi_b|)`;
and A's index is checked first: if it clears the safe bar the outcome is
an A-side decision regardless of B. -/
theorem c8_result_decision (rsi_a rsi_b : ℚ) (flags : List Flag) :
    (Flag.echantillon_combine_faible ∈ flags →
      (prendre_decision_result defaultSeuils rsi_a rsi_b flags).1 ≠ DecisionResult.ultraA ∧
      (prendre_decision_result defaultSeuils rsi_a rsi_b flags).1 ≠ DecisionResult.ultraB) ∧
    (rsi_a < (if flags.any Flag.isEchantillon then defaultSeuils.safe_result + 3/100
        else defaultSeuils.safe_result) →
      rsi_b < (if flags.any Flag.isEchantillon then defaultSeuils.safe_result + 3/100
        else defaultSeuils.safe_result) →
      prendre_decision_result defaultSeuils rsi_a rsi_b flags
        = (DecisionResult.eviter, max |rsi_a| |rsi_b|)) ∧
    ((if flags.any Flag.isEchantillon then defaultSeuils.safe_result + 3/100
        else defaultSeuils.safe_result) ≤ rsi_a →
      (prendre_decision_result defaultSeuils rsi_a rsi_b flags).1 = DecisionResult.ultraA ∨
      (prendre_decision_result defaultSeuils rsi_a rsi_b flags).1 = DecisionResult.safeA) := by
  refine ⟨?_, ?_, ?_⟩
  · intro hmem
    have hexcl : flags.any Flag.isExclusion = true :=
      List.any_eq_true.mpr ⟨Flag.echantillon_combine_faible, hmem, rfl⟩
    simp only [prendre_decision_result, hexcl, not_true, and_false, if_false]
    split_ifs <;> simp
  · intro ha hb
    rcases hE : flags.any Flag.isEchantillon with _ | _ <;>
      rw [hE] at ha hb <;>
      simp only [prendre_decision_result, defaultSeuils, hE, Bool.false_eq_true,
        if_false, if_true] at * <;>
      split_ifs with h1 h2 h3 h4 <;>
      first
        | rfl
        | (exfalso; rcases h1 with ⟨h1a, h1b⟩ <;> linarith)
        | (exfalso; linarith)
  · intro ha
    rcases hE : flags.any Flag.isEchantillon with _ | _ <;>
      rw [hE] at ha <;>
      simp only [prendre_decision_result, defaultSeuils, hE, Bool.false_eq_true,
        if_false, if_true] at * <;>
      split_ifs <;>
      first
        | (left; rfl)
        | (right; rfl)

/-- C8, witness: with the combined-low-sample flag raised, an A-side
index of 0.7 (above the ultra threshold) still does not yield the ultra
tier. -/
theorem c8_result_decision_witness :
    (prendre_decision_result defaultSeuils (7/10) 0 [Flag.echantillon_combine_faible]).1
      ≠ DecisionResult.ultraA ∧
    (prendre_decision_result defaultSeuils (7/10) 0 [Flag.echantillon_combine_faible]).1
      ≠ DecisionResult.ultraB :=
(c8_result_decision (7/10) 0 [Flag.echantillon_combine_faible]).1 (by simp)

/-- C9: a match pair with a team missing from the Rating Cache, or whose
two cached teams carry different league ids, yields an absent analysis,
and removing such a pair from the input leaves both the recommendation
rows and the history rows unchanged — the pair contributes zero rows. -/
theorem c9_absent_contributes_nothing (s : Seuils) (cache : ℤ → Option TeamStats) (a b : ℤ)
    (h : cache a = none ∨ cache b = none ∨
      ∃ ta tb, cache a = some ta ∧ cache b = some tb ∧ ta.league_id ≠ tb.league_id) :
    analyser_match s cache a b = none ∧
    ∀ l1 l2 : List (ℤ × ℤ),
      generer_paris_du_jour s cache (l1 ++ (a, b) :: l2)
        = generer_paris_du_jour s cache (l1 ++ l2) := by
  have hnone : analyser_match s cache a b = none := by
    rcases h with h | h | ⟨ta, tb, ha, hb, hne⟩
    · rcases hb : cache b with _ | tb <;> simp [analyser_match, h, hb]
    · rcases ha : cache a with _ | ta <;> simp [analyser_match, h, ha]
    · simp [analyser_match, ha, hb, hne]
  refine ⟨hnone, fun l1 l2 => ?_⟩
  unfold generer_paris_du_jour analyses_du_jour
  rw [List.filterMap_append, List.filterMap_append, List.filterMap_cons]
  simp only [hnone]

/-- C9, witness: with an empty cache, the pair (1,2) yields no analysis
and adding it to an empty slate changes nothing. -/
theorem c9_absent_contributes_nothing_witness :
    analyser_match defaultSeuils (fun _ => none) 1 2 = none ∧
    generer_paris_du_jour defaultSeuils (fun _ => none) ([] ++ (1, 2) :: [])
      = generer_paris_du_jour defaultSeuils (fun _ => none) ([] ++ []) :=
⟨(c9_absent_contributes_nothing defaultSeuils (fun _ => none) 1 2 (Or.inl rfl)).1,
 (c9_absent_contributes_nothing defaultSeuils (fun _ => none) 1 2 (Or.inl rfl)).2 [] []⟩

/-- Elements kept by the top-n cut of a descending stable sort dominate
the dropped elements in the sort key. -/
theorem sort_take_drop_dominates (key : MatchAnalysis → ℚ) (l : List MatchAnalysis) (n : ℕ) :
    ∀ x ∈ (l.mergeSort (fun u v => decide (key v ≤ key u))).take n,
    ∀ y ∈ (l.mergeSort (fun u v => decide (key v ≤ key u))).drop n,
      key y ≤ key x := by
  intro x hx y hy
  have hs : (l.mergeSort (fun u v => decide (key v ≤ key u))).Pairwise
      (fun u v => decide (key v ≤ key u)) := by
    refine List.sorted_mergeSort ?_ ?_ l
    · intro u v w huv hvw
      have h1 := of_decide_eq_true huv
      have h2 := of_decide_eq_true hvw
      exact decide_eq_true (h2.trans h1)
    · intro u v
      rcases le_total (key v) (key u) with h | h
      · simp [h]
      · simp [h]
  have hsplit : (l.mergeSort (fun u v => decide (key v ≤ key u))).take n
      ++ (l.mergeSort (fun u v => decide (key v ≤ key u))).drop n
      = l.mergeSort (fun u v => decide (key v ≤ key u)) :=
    List.take_append_drop n _
  have hp : ((l.mergeSort (fun u v => decide (key v ≤ key u))).take n
      ++ (l.mergeSort (fun u v => decide (key v ≤ key u))).drop n).Pairwise
      (fun u v => decide (key v ≤ key u)) := by
    rw [hsplit]
    exact hs
  exact of_decide_eq_true ((List.pairwise_append.mp hp).2.2 x hx y hy)

/-- C10: the recommendation output holds at most 3 rows per bet family
(at most 6 data rows), they are the top of the sorted qualifying
evaluations, the sorted lists are permutations of the qualifying sets,
and every emitted candidate's confidence dominates every dropped one. -/
theorem c10_top3_per_family (s : Seuils) (cache : ℤ → Option TeamStats)
    (matchs : List (ℤ × ℤ)) :
    (generer_paris_du_jour s cache matchs).1
      = ecrire_paris_du_jour
          (tri_over ((analyses_du_jour s cache matchs).filter isUltraOver))
          (tri_result ((analyses_du_jour s cache matchs).filter isUltraResult)) ∧
    ((generer_paris_du_jour s cache matchs).1.countP
        (fun r => decide (r.1 = BetType.ultraSafeOver15))) ≤ 3 ∧
    ((generer_paris_du_jour s cache matchs).1.countP
        (fun r => decide (r.1 = BetType.ultraSafeResult))) ≤ 3 ∧
    (generer_paris_du_jour s cache matchs).1.length ≤ 6 ∧
    List.Perm (tri_over ((analyses_du_jour s cache matchs).filter isUltraOver))
      ((analyses_du_jour s cache matchs).filter isUltraOver) ∧
    List.Perm (tri_result ((analyses_du_jour s cache matchs).filter isUltraResult))
      ((analyses_du_jour s cache matchs).filter isUltraResult) ∧
    (∀ x ∈ (tri_over ((analyses_du_jour s cache matchs).filter isUltraOver)).take 3,
     ∀ y ∈ (tri_over ((analyses_du_jour s cache matchs).filter isUltraOver)).drop 3,
       y.fiabilite_over15 ≤ x.fiabilite_over15) ∧
    (∀ x ∈ (tri_result ((analyses_du_jour s cache matchs).filter isUltraResult)).take 3,
     ∀ y ∈ (tri_result ((analyses_du_jour s cache matchs).filter isUltraResult)).drop 3,
       y.fiabilite_result ≤ x.fiabilite_result) := by
  refine ⟨rfl, ?_, ?_, ?_, List.mergeSort_perm _ _, List.mergeSort_perm _ _,
    sort_take_drop_dominates MatchAnalysis.fiabilite_over15 _ 3,
    sort_take_drop_dominates MatchAnalysis.fiabilite_result _ 3⟩
  · simp only [generer_paris_du_jour, ecrire_paris_du_jour, List.countP_append,
      List.countP_map]
    have h1 : ∀ m : List MatchAnalysis,
        m.countP ((fun r : BetType × MatchAnalysis => decide (r.1 = BetType.ultraSafeOver15))
          ∘ (fun a => (BetType.ultraSafeOver15, a))) = m.length := by
      intro m
      simp [Function.comp, List.countP_eq_length]
    have h2 : ∀ m : List MatchAnalysis,
        m.countP ((fun r : BetType × MatchAnalysis => decide (r.1 = BetType.ultraSafeOver15))
          ∘ (fun a => (BetType.ultraSafeResult, a))) = 0 := by
      intro m
      simp [Function.comp, List.countP_eq_zero]
    rw [h1, h2]
    have := List.length_take 3
      (tri_over ((analyses_du_jour s cache matchs).filter isUltraOver))
    omega
  · simp only [generer_paris_du_jour, ecrire_paris_du_jour, List.countP_append,
      List.countP_map]
    have h1 : ∀ m : List MatchAnalysis,
        m.countP ((fun r : BetType × MatchAnalysis => decide (r.1 = BetType.ultraSafeResult))
          ∘ (fun a => (BetType.ultraSafeResult, a))) = m.length := by
      intro m
      simp [Function.comp, List.countP_eq_length]
    have h2 : ∀ m : List MatchAnalysis,
        m.countP ((fun r : BetType × MatchAnalysis => decide (r.1 = BetType.ultraSafeResult))
          ∘ (fun a => (BetType.ultraSafeOver15, a))) = 0 := by
      intro m
      simp [Function.comp, List.countP_eq_zero]
    rw [h1, h2]
    have := List.length_take 3
      (tri_result ((analyses_du_jour s cache matchs).filter isUltraResult))
    omega
  · simp only [generer_paris_du_jour, ecrire_paris_du_jour, List.length_append,
      List.length_map]
    have h1 := List.length_take 3
      (tri_over ((analyses_du_jour s cache matchs).filter isUltraOver))
    have h2 := List.length_take 3
      (tri_result ((analyses_du_jour s cache matchs).filter isUltraResult))
    omega

/-- C10, witness: the permutation components at a concrete (empty) run. -/
theorem c10_top3_per_family_witness :
    List.Perm (tri_over ((analyses_du_jour defaultSeuils (fun _ => none) []).filter isUltraOver))
      ((analyses_du_jour defaultSeuils (fun _ => none) []).filter isUltraOver) ∧
    ((generer_paris_du_jour defaultSeuils (fun _ => none) []).1.countP
        (fun r => decide (r.1 = BetType.ultraSafeOver15))) ≤ 3 :=
⟨(c10_top3_per_family defaultSeuils (fun _ => none) []).2.2.2.2.1,
 (c10_top3_per_family defaultSeuils (fun _ => none) []).2.1⟩

end UltraSafe
